import Mathlib

/-
  Verification of the scanner repository's webhook delivery engine,
  blockchain change detector and event classifier.

  Shallow embedding notes:
  - Timestamps and millisecond delays are modelled as rationals (JS numbers
    on the integer/half-integer values that actually occur here are exact).
  - A JS value that is either `undefined` or an object/array is modelled as
    an `Option`; JS truthiness of such a value is `Option.isSome`
    (an object is truthy even when empty, `undefined` is falsy).
  - Asset quantities are decimal integer strings in the source; they are
    modelled by their numeric value.
-/

namespace Scanner

/-! ## Webhook delivery engine (`src/webhooks/processor.ts`) -/

/-- Delivery status enumeration from `src/types/index.ts`. -/
inductive WebhookDeliveryStatus
  | pending
  | in_progress
  | succeeded
  | failed
  | retrying
  | max_retries_exceeded
deriving DecidableEq, Repr

/-- The `config.webhook` record from `src/config/index.ts`:
`maxRetries` (env `WEBHOOK_MAX_RETRIES`, default 5) and `retryDelay`
(env `WEBHOOK_RETRY_DELAY`, default 30000 ms). -/
structure WebhookConfig where
  maxRetries : ℕ
  retryDelay : ℚ
deriving DecidableEq, Repr

/-- The default configuration values. -/
def defaultConfig : WebhookConfig := { maxRetries := 5, retryDelay := 30000 }

/-- A row of the `webhook_deliveries` table, as in `src/types/index.ts`. -/
structure WebhookDelivery where
  webhook_id : String
  event_id : String
  attempt_count : ℕ
  status : WebhookDeliveryStatus
  status_code : Option ℕ
  response_body : Option String
  next_retry_at : Option ℚ
  completed_at : Option ℚ
deriving DecidableEq, Repr

/-- The row inserted by `queueWebhookDelivery` (processor.ts lines 60-90):
`attempt_count` 0, status PENDING, and `next_retry_at = new Date()`
("Schedule for immediate delivery"), all other nullable columns NULL. -/
def queueWebhookDelivery (webhookId eventId : String) (now : ℚ) : WebhookDelivery :=
  { webhook_id := webhookId
    event_id := eventId
    attempt_count := 0
    status := WebhookDeliveryStatus.pending
    status_code := none
    response_body := none
    next_retry_at := some now
    completed_at := none }

/-- Outcome of the HTTP attempt inside `deliverWebhook`: the axios POST
returns a response, throws with an HTTP status and body, or the
surrounding processing throws (outer catch). -/
inductive AttemptOutcome
  | success (code : ℕ) (body : String)
  | httpFailure (code : ℕ) (body : String)
  | hardError (msg : String)
deriving DecidableEq, Repr

/-- First write of `deliverWebhook` (processor.ts lines 115-118): status to
IN_PROGRESS and `attempt_count = attempt_count + 1`. -/
def markInProgress (d : WebhookDelivery) : WebhookDelivery :=
  { d with status := WebhookDeliveryStatus.in_progress
           attempt_count := d.attempt_count + 1 }

/-- The backoff delay of processor.ts line 181:
`config.webhook.retryDelay * Math.pow(2, delivery.attempt_count - 1)`,
where `delivery.attempt_count` is the value loaded before the increment. -/
def retryDelayMs (cfg : WebhookConfig) (loadedAttemptCount : ℕ) : ℚ :=
  cfg.retryDelay * (2 : ℚ) ^ ((loadedAttemptCount : ℤ) - 1)

/-- One run of `deliverWebhook` (processor.ts lines 95-216) on a loaded
delivery row `d` with outcome `oc` at time `now`.  The loaded (stale)
`d.attempt_count` is what lines 177 and 181 read; the row has meanwhile
been incremented by `markInProgress`. -/
def deliverWebhook (cfg : WebhookConfig) (d : WebhookDelivery) (now : ℚ)
    (oc : AttemptOutcome) : WebhookDelivery :=
  let d1 := markInProgress d
  match oc with
  | AttemptOutcome.success code body =>
      { d1 with status := WebhookDeliveryStatus.succeeded
                status_code := some code
                response_body := some body
                completed_at := some now }
  | AttemptOutcome.httpFailure code body =>
      if d.attempt_count < cfg.maxRetries then
        { d1 with status := WebhookDeliveryStatus.retrying
                  status_code := some code
                  response_body := some body
                  next_retry_at := some (now + retryDelayMs cfg d.attempt_count) }
      else
        { d1 with status := WebhookDeliveryStatus.max_retries_exceeded
                  status_code := some code
                  response_body := some body
                  completed_at := some now }
  | AttemptOutcome.hardError msg =>
      { d1 with status := WebhookDeliveryStatus.failed
                response_body := some msg
                completed_at := some now }

/-- A fresh delivery whose attempts all fail over HTTP: `n`-fold iteration
of `deliverWebhook` with a failing outcome. -/
def failNTimes (cfg : WebhookConfig) : ℕ → WebhookDelivery → WebhookDelivery
  | 0, d => d
  | n + 1, d => failNTimes cfg n (deliverWebhook cfg d 0 (AttemptOutcome.httpFailure 500 "err"))

end Scanner

namespace Scanner

/-! ## Delivery system model: sweeper and scheduled attempts

`queueWebhookDelivery` schedules one immediate `deliverWebhook` invocation
(`setImmediate`, processor.ts lines 79-83); `processWebhookQueue`
(lines 222-249) selects deliveries with status PENDING, or RETRYING with
`next_retry_at <= now`, and fires `deliverWebhook` for each without
awaiting.  A system state is the persisted row plus the number of
scheduled-but-not-yet-run `deliverWebhook` invocations for it. -/

/-- The sweeper's selection condition of processor.ts lines 226-229 for one
delivery row (SQL `status = PENDING OR (status = RETRYING AND
next_retry_at <= CURRENT_TIMESTAMP)`, a NULL comparison being false). -/
def sweepDue (d : WebhookDelivery) (now : ℚ) : Bool :=
  match d.status, d.next_retry_at with
  | WebhookDeliveryStatus.pending, _ => true
  | WebhookDeliveryStatus.retrying, some t => decide (t ≤ now)
  | _, _ => false

/-- One delivery's persisted row together with its outstanding scheduled
`deliverWebhook` invocations. -/
structure DeliverySystem where
  row : WebhookDelivery
  pendingAttempts : ℕ
deriving DecidableEq, Repr

/-- Steps the system can take on one delivery: the sweeper selects it
(scheduling one more invocation), or a scheduled invocation runs
`deliverWebhook` to completion with some outcome. -/
inductive SysStep (cfg : WebhookConfig) : DeliverySystem → DeliverySystem → Prop
  | sweepSelect (s : DeliverySystem) (now : ℚ) (h : sweepDue s.row now = true) :
      SysStep cfg s ⟨s.row, s.pendingAttempts + 1⟩
  | runAttempt (s : DeliverySystem) (now : ℚ) (oc : AttemptOutcome) (n : ℕ)
      (h : s.pendingAttempts = n + 1) :
      SysStep cfg s ⟨deliverWebhook cfg s.row now oc, n⟩

/-- States reachable for one delivery, starting from its creation by
`queueWebhookDelivery` (which schedules the immediate dispatch). -/
inductive SysReachable (cfg : WebhookConfig) : DeliverySystem → Prop
  | init (webhookId eventId : String) (now : ℚ) :
      SysReachable cfg ⟨queueWebhookDelivery webhookId eventId now, 1⟩
  | step {s s' : DeliverySystem} :
      SysReachable cfg s → SysStep cfg s s' → SysReachable cfg s'

/-- The terminal statuses of the delivery state machine. -/
def TerminalStatus (st : WebhookDeliveryStatus) : Prop :=
  st = WebhookDeliveryStatus.succeeded ∨
  st = WebhookDeliveryStatus.max_retries_exceeded ∨
  st = WebhookDeliveryStatus.failed

/-- No update of `deliverWebhook` writes NULL to `next_retry_at`: the
retry branch overwrites it and every other branch leaves it alone. -/
theorem deliverWebhook_keeps_next_retry_at (cfg : WebhookConfig) (d : WebhookDelivery)
    (now : ℚ) (oc : AttemptOutcome) (h : d.next_retry_at.isSome = true) :
    (deliverWebhook cfg d now oc).next_retry_at.isSome = true := by
  cases oc with
  | success code body => simpa [deliverWebhook, markInProgress] using h
  | httpFailure code body =>
      by_cases hlt : d.attempt_count < cfg.maxRetries
      · simp [deliverWebhook, markInProgress, hlt]
      · simpa [deliverWebhook, markInProgress, hlt] using h
  | hardError msg => simpa [deliverWebhook, markInProgress] using h

/-- C3 (amended): in every reachable delivery row `next_retry_at` is
non-null — it is set to the creation instant by `queueWebhookDelivery`
("Schedule for immediate delivery"), overwritten at each RETRYING
transition, and never cleared by any status update, terminal ones
included. -/
theorem next_retry_at_always_set (cfg : WebhookConfig) (s : DeliverySystem)
    (h : SysReachable cfg s) : s.row.next_retry_at.isSome = true := by
  induction h with
  | init webhookId eventId now => rfl
  | step hr hs ih =>
      cases hs with
      | sweepSelect now hdue => exact ih
      | runAttempt now oc n hp =>
          exact deliverWebhook_keeps_next_retry_at cfg _ now oc ih

/-- Witness: the freshly queued delivery is reachable and its
`next_retry_at` is set. -/
theorem next_retry_at_always_set_witness :
    (DeliverySystem.mk (queueWebhookDelivery "w" "e" 0) 1).row.next_retry_at.isSome = true :=
  next_retry_at_always_set defaultConfig _ (SysReachable.init "w" "e" 0)

/-- C3 counterexample: a freshly created delivery has status PENDING and a
non-null `next_retry_at` (the creation instant), so "next_retry_at is
non-null iff status is RETRYING" fails already at creation. -/
theorem pending_has_next_retry_at :
    (queueWebhookDelivery "w" "e" 0).status = WebhookDeliveryStatus.pending ∧
    (queueWebhookDelivery "w" "e" 0).next_retry_at = some 0 :=
  ⟨rfl, rfl⟩

end Scanner

namespace Scanner

/-- The state after: creation, a sweeper selection made while the delivery
was still PENDING, and the immediate dispatch succeeding — the delivery is
SUCCEEDED but the sweeper's scheduled invocation is still outstanding. -/
def staleSweepState : DeliverySystem :=
  ⟨deliverWebhook defaultConfig (queueWebhookDelivery "w" "e" 0) 1
      (AttemptOutcome.success 200 "ok"), 1⟩

/-- The state after the outstanding stale invocation runs and its HTTP
POST fails. -/
def staleSweepNext : DeliverySystem :=
  ⟨deliverWebhook defaultConfig staleSweepState.row 2
      (AttemptOutcome.httpFailure 500 "err"), 0⟩

/-- C4 counterexample: a reachable state whose delivery is SUCCEEDED
(terminal) takes a system step — running the attempt the sweeper scheduled
while the delivery was still PENDING — to status RETRYING (non-terminal):
`deliverWebhook` performs no terminal-status check before re-attempting. -/
theorem terminal_regression_counterexample :
    SysReachable defaultConfig staleSweepState ∧
    staleSweepState.row.status = WebhookDeliveryStatus.succeeded ∧
    SysStep defaultConfig staleSweepState staleSweepNext ∧
    staleSweepNext.row.status = WebhookDeliveryStatus.retrying := by
  refine ⟨?_, rfl, ?_, rfl⟩
  · exact SysReachable.step
      (SysReachable.step (SysReachable.init "w" "e" 0)
        (SysStep.sweepSelect ⟨queueWebhookDelivery "w" "e" 0, 1⟩ 0 rfl))
      (SysStep.runAttempt ⟨queueWebhookDelivery "w" "e" 0, 2⟩ 1
        (AttemptOutcome.success 200 "ok") 1 rfl)
  · exact SysStep.runAttempt staleSweepState 2 (AttemptOutcome.httpFailure 500 "err") 0 rfl

/-- C4 (amended): once a delivery is terminal and no attempt invocation
scheduled before the terminal transition is still outstanding, the system
takes no further step on it: the sweeper never selects a terminal delivery
and no new attempt is ever scheduled for it.  (Per the counterexample, an
invocation scheduled while it was still PENDING or RETRYING can run after
the terminal transition and regress it.) -/
theorem terminal_without_stale_attempt_halts (cfg : WebhookConfig) (s : DeliverySystem)
    (hterm : TerminalStatus s.row.status) (hpend : s.pendingAttempts = 0)
    (s' : DeliverySystem) : ¬ SysStep cfg s s' := by
  intro hstep
  cases hstep with
  | sweepSelect now hdue =>
      rcases hterm with h | h | h <;> rw [sweepDue, h] at hdue <;> simp at hdue
  | runAttempt now oc n hp => omega

/-- Witness: the delivery that succeeded on its immediate dispatch with no
outstanding invocation admits no step at all. -/
theorem terminal_without_stale_attempt_halts_witness :
    ¬ SysStep defaultConfig
      (DeliverySystem.mk (deliverWebhook defaultConfig (queueWebhookDelivery "w" "e" 0) 1
        (AttemptOutcome.success 200 "ok")) 0)
      (DeliverySystem.mk (deliverWebhook defaultConfig (queueWebhookDelivery "w" "e" 0) 1
        (AttemptOutcome.success 200 "ok")) 0) :=
  terminal_without_stale_attempt_halts defaultConfig _ (Or.inl rfl) rfl _

/-- C1 (amended): when an HTTP attempt fails and a retry is scheduled, the
delay after failed attempt `k` (the loaded `attempt_count` being `k - 1`)
is `retryDelay * 2 ^ (k - 2)` — half of `retryDelay * 2 ^ (k - 1)` —
because line 181 reads the pre-increment `delivery.attempt_count`. -/
theorem retry_delay_after_attempt_k (cfg : WebhookConfig) (d : WebhookDelivery)
    (now : ℚ) (code : ℕ) (body : String) (k : ℕ)
    (hk : d.attempt_count + 1 = k)
    (hretry : d.attempt_count < cfg.maxRetries) :
    (deliverWebhook cfg d now (AttemptOutcome.httpFailure code body)).status
        = WebhookDeliveryStatus.retrying ∧
    (deliverWebhook cfg d now (AttemptOutcome.httpFailure code body)).next_retry_at
        = some (now + cfg.retryDelay * (2 : ℚ) ^ ((k : ℤ) - 2)) := by
  subst hk
  constructor
  · simp [deliverWebhook, markInProgress, hretry]
  · have hexp : ((d.attempt_count : ℤ)) - 1 = ((d.attempt_count + 1 : ℕ) : ℤ) - 2 := by
      push_cast
      ring
    simp [deliverWebhook, markInProgress, retryDelayMs, hretry, hexp]

/-- Witness: the second failed attempt (loaded attempt_count 1) schedules
its retry `retryDelay * 2 ^ 0` after now. -/
theorem retry_delay_after_attempt_k_witness :
    (deliverWebhook defaultConfig
        { queueWebhookDelivery "w" "e" 0 with attempt_count := 1 } 0
        (AttemptOutcome.httpFailure 500 "err")).status
        = WebhookDeliveryStatus.retrying ∧
    (deliverWebhook defaultConfig
        { queueWebhookDelivery "w" "e" 0 with attempt_count := 1 } 0
        (AttemptOutcome.httpFailure 500 "err")).next_retry_at
        = some ((0 : ℚ) + defaultConfig.retryDelay * (2 : ℚ) ^ ((2 : ℤ) - 2)) :=
  retry_delay_after_attempt_k defaultConfig
    { queueWebhookDelivery "w" "e" 0 with attempt_count := 1 } 0 500 "err" 2 rfl (by decide)

/-- C1 counterexample: the first failed attempt of a fresh delivery (with
the default configuration, at time 0) schedules its retry at 15000 ms, not
at the `baseDelay * 2 ^ (1 - 1) = 30000` ms the claim requires. -/
theorem first_retry_delay_counterexample :
    (deliverWebhook defaultConfig (queueWebhookDelivery "w" "e" 0) 0
        (AttemptOutcome.httpFailure 500 "err")).next_retry_at = some 15000 ∧
    some ((15000 : ℚ)) ≠
      some ((0 : ℚ) + defaultConfig.retryDelay * (2 : ℚ) ^ ((1 : ℤ) - 1)) := by
  constructor
  · norm_num [deliverWebhook, markInProgress, retryDelayMs, queueWebhookDelivery, defaultConfig]
  · norm_num [defaultConfig]

/-- C2: with the default configuration a delivery whose HTTP attempts all
fail is still RETRYING after its 5th failed attempt and reaches
MAX_RETRIES_EXCEEDED only on the 6th, with `next_retry_at` left at its
last scheduled value rather than NULL: line 177 compares the pre-increment
`delivery.attempt_count` with `maxRetries`, and the MAX_RETRIES_EXCEEDED
update does not touch `next_retry_at`. -/
theorem max_retries_off_by_one :
    (failNTimes defaultConfig 5 (queueWebhookDelivery "w" "e" 0)).status
        = WebhookDeliveryStatus.retrying ∧
    (failNTimes defaultConfig 5 (queueWebhookDelivery "w" "e" 0)).attempt_count = 5 ∧
    (failNTimes defaultConfig 6 (queueWebhookDelivery "w" "e" 0)).status
        = WebhookDeliveryStatus.max_retries_exceeded ∧
    (failNTimes defaultConfig 6 (queueWebhookDelivery "w" "e" 0)).attempt_count = 6 ∧
    (failNTimes defaultConfig 6 (queueWebhookDelivery "w" "e" 0)).next_retry_at.isSome = true :=
  ⟨rfl, rfl, rfl, rfl, rfl⟩

end Scanner

namespace Scanner

/-! ## Transaction data (`src/types/index.ts`, `src/blockchain/blockfrost.ts`) -/

/-- One asset amount entry; `quantity` is a decimal integer string in the
source, modelled by its numeric value. -/
structure AmountEntry where
  unit : String
  quantity : ℕ
deriving DecidableEq, Repr

/-- One input or output entry of a transaction; `amount` may be absent
(the monitor guards with `output.amount || []`). -/
structure TxEntry where
  address : String
  amount : Option (List AmountEntry)
deriving DecidableEq, Repr

/-- An item of the fetched address-transactions list as the monitor reads
it: `tx.tx_hash` plus possibly absent `inputs`/`outputs` arrays
(monitor.ts guards each access with an existence and array check). -/
structure AddressTxItem where
  tx_hash : String
  inputs : Option (List TxEntry)
  outputs : Option (List TxEntry)
deriving DecidableEq, Repr

/-- The raw blockfrost `txs` response fields the conversion carries over. -/
structure BlockfrostTxResponse where
  hash : String
  block_height : ℕ
  block_time : ℕ
deriving DecidableEq, Repr

/-- The converted transaction detail (`CardanoTransaction`): `metadata` is
a label-keyed object modelled as a label/json association list; `none`
would be JS `undefined`, and JS truthiness of the field is `isSome`. -/
structure CardanoTransaction where
  hash : String
  block_height : ℕ
  block_time : ℕ
  asset_mint_count : ℕ
  metadata : Option (List (String × String))
deriving DecidableEq, Repr

/-- `getTransactionInfo` (blockfrost service): converts the raw response,
hardcoding `asset_mint_count := 0` ("Default value for asset_mint_count if
not present") and always attaching a metadata object — the default empty
one, or the reduce of the fetched label/json list. -/
def getTransactionInfo (r : BlockfrostTxResponse)
    (metaList : List (String × String)) : CardanoTransaction :=
  { hash := r.hash
    block_height := r.block_height
    block_time := r.block_time
    asset_mint_count := 0
    metadata := some metaList }

/-- Event kinds from the `EventType` enumeration in `src/types/index.ts`. -/
inductive EventType
  | transaction_received
  | transaction_sent
  | ada_received
  | ada_sent
  | token_received
  | token_sent
  | token_minted
  | token_burned
  | nft_received
  | nft_sent
  | contract_executed
  | stake_delegated
  | reward_received
  | governance_vote
  | defi_interaction
  | dex_interaction
  | collateral_locked
  | collateral_released
  | oracle_update
  | metadata_added
  | multi_sig_transaction
  | time_locked_execution
deriving DecidableEq, Repr

/-! ## Event classifier (`src/blockchain/monitor.ts` lines 146-241) -/

/-- `isReceiver` (monitor.ts lines 150-151): some output entry's address
equals the watched address; absent outputs give false. -/
def isReceiver (watched : String) (tx : AddressTxItem) : Bool :=
  match tx.outputs with
  | some outs => outs.any (fun o => o.address == watched)
  | none => false

/-- `isSender` (monitor.ts lines 152-153): some input entry's address
equals the watched address; absent inputs give false. -/
def isSender (watched : String) (tx : AddressTxItem) : Bool :=
  match tx.inputs with
  | some ins => ins.any (fun i => i.address == watched)
  | none => false

/-- The amount pipeline shared by the ADA and token checks: entries at the
watched address, flat-mapped over their amount lists. -/
def amountsAt (watched : String) (entries : Option (List TxEntry)) : List AmountEntry :=
  match entries with
  | some l => (l.filter (fun e => e.address == watched)).flatMap (fun e => e.amount.getD [])
  | none => []

/-- Receiver-side pushes (monitor.ts lines 155-200): TRANSACTION_RECEIVED;
ADA_RECEIVED when the lovelace quantities at the address sum positive;
then, when any non-lovelace amount exists, NFT_RECEIVED first if some such
amount has quantity 1, and TOKEN_RECEIVED. -/
def receiverEvents (watched : String) (outputs : Option (List TxEntry)) : List EventType :=
  let adaReceived : ℕ :=
    ((amountsAt watched outputs).filter (fun a => a.unit == "lovelace")).foldl
      (fun s a => s + a.quantity) 0
  let tokensReceived : List AmountEntry :=
    (amountsAt watched outputs).filter (fun a => a.unit != "lovelace")
  [EventType.transaction_received]
    ++ (if 0 < adaReceived then [EventType.ada_received] else [])
    ++ (if 0 < tokensReceived.length then
          (if tokensReceived.any (fun t => t.quantity == 1) then
            [EventType.nft_received] else [])
            ++ [EventType.token_received]
        else [])

/-- Sender-side pushes (monitor.ts lines 202-236), mirroring the receiver
logic over the input entries. -/
def senderEvents (watched : String) (inputs : Option (List TxEntry)) : List EventType :=
  let adaSent : ℕ :=
    ((amountsAt watched inputs).filter (fun a => a.unit == "lovelace")).foldl
      (fun s a => s + a.quantity) 0
  let tokensSent : List AmountEntry :=
    (amountsAt watched inputs).filter (fun a => a.unit != "lovelace")
  [EventType.transaction_sent]
    ++ (if 0 < adaSent then [EventType.ada_sent] else [])
    ++ (if 0 < tokensSent.length then
          (if tokensSent.any (fun t => t.quantity == 1) then
            [EventType.nft_sent] else [])
            ++ [EventType.token_sent]
        else [])

/-- Event kinds created for one (watched address, transaction) pair by the
`checkAddressTransactions` loop body, in push order: the receiver block if
`isReceiver`, the sender block if `isSender`, then METADATA_ADDED when
`txInfo.metadata` is truthy — it is `undefined` or an object, and an
object is truthy even when empty. -/
def classifyAddressTx (watched : String) (tx : AddressTxItem)
    (txInfo : CardanoTransaction) : List EventType :=
  (if isReceiver watched tx then receiverEvents watched tx.outputs else [])
    ++ (if isSender watched tx then senderEvents watched tx.inputs else [])
    ++ (if txInfo.metadata.isSome then [EventType.metadata_added] else [])

/-- Event kinds created for one (watched contract, transaction) pair by
the `checkContractTransactions` loop body (monitor.ts lines 297-330):
always CONTRACT_EXECUTED, then TOKEN_MINTED when the detail's
`asset_mint_count` is positive. -/
def contractEvents (txInfo : CardanoTransaction) : List EventType :=
  EventType.contract_executed ::
    (if 0 < txInfo.asset_mint_count then [EventType.token_minted] else [])

end Scanner

namespace Scanner

/-- The receiver block never pushes METADATA_ADDED. -/
theorem metadata_added_not_in_receiverEvents (watched : String)
    (outputs : Option (List TxEntry)) :
    EventType.metadata_added ∉ receiverEvents watched outputs := by
  simp only [receiverEvents, List.mem_append, List.mem_cons, List.mem_singleton]
  split_ifs <;> simp

/-- The sender block never pushes METADATA_ADDED. -/
theorem metadata_added_not_in_senderEvents (watched : String)
    (inputs : Option (List TxEntry)) :
    EventType.metadata_added ∉ senderEvents watched inputs := by
  simp only [senderEvents, List.mem_append, List.mem_cons, List.mem_singleton]
  split_ifs <;> simp

/-- C5 (amended): for every transaction whose detail was fetched through
`getTransactionInfo`, classification emits METADATA_ADDED exactly once —
regardless of direction and regardless of whether the metadata is empty,
because the converted detail always carries a metadata object (defaulted
to the empty one) and the monitor only tests the field's truthiness. -/
theorem metadata_added_exactly_once (watched : String) (tx : AddressTxItem)
    (r : BlockfrostTxResponse) (metaList : List (String × String)) :
    (classifyAddressTx watched tx (getTransactionInfo r metaList)).count
        EventType.metadata_added = 1 := by
  have hr : ∀ l : List EventType, EventType.metadata_added ∉ l → l.count EventType.metadata_added = 0 :=
    fun l h => List.count_eq_zero.mpr h
  simp only [classifyAddressTx, List.count_append, getTransactionInfo]
  rcases hR : isReceiver watched tx with _ | _ <;>
    rcases hS : isSender watched tx with _ | _ <;>
      simp [hr _ (metadata_added_not_in_receiverEvents watched tx.outputs),
            hr _ (metadata_added_not_in_senderEvents watched tx.inputs)]

/-- C5 counterexample: a transaction with no metadata at all (the metadata
endpoint returned the empty list, so the converted detail's metadata is
the default empty object) still gets METADATA_ADDED. -/
theorem metadata_added_on_empty_metadata :
    (getTransactionInfo (BlockfrostTxResponse.mk "tx1" 1 2) []).metadata = some [] ∧
    EventType.metadata_added ∈
      classifyAddressTx "addr1" (AddressTxItem.mk "tx1" none none)
        (getTransactionInfo (BlockfrostTxResponse.mk "tx1" 1 2) []) := by
  exact ⟨rfl, by decide⟩

/-- Members of the receiver block are receive-side kinds only. -/
theorem mem_receiverEvents (watched : String) (outputs : Option (List TxEntry))
    (e : EventType) (h : e ∈ receiverEvents watched outputs) :
    e = EventType.transaction_received ∨ e = EventType.ada_received ∨
    e = EventType.nft_received ∨ e = EventType.token_received := by
  simp only [receiverEvents, List.mem_append, List.mem_cons,
    List.mem_singleton, List.not_mem_nil] at h
  split_ifs at h <;> simp_all <;> tauto

/-- C6: when the watched address appears in some output entry and in no
input entry, classification emits TRANSACTION_RECEIVED and none of
TRANSACTION_SENT, ADA_SENT, TOKEN_SENT, NFT_SENT. -/
theorem receiver_only_classification (watched : String) (tx : AddressTxItem)
    (txInfo : CardanoTransaction)
    (hrecv : isReceiver watched tx = true) (hsend : isSender watched tx = false) :
    EventType.transaction_received ∈ classifyAddressTx watched tx txInfo ∧
    EventType.transaction_sent ∉ classifyAddressTx watched tx txInfo ∧
    EventType.ada_sent ∉ classifyAddressTx watched tx txInfo ∧
    EventType.token_sent ∉ classifyAddressTx watched tx txInfo ∧
    EventType.nft_sent ∉ classifyAddressTx watched tx txInfo := by
  have hcal : classifyAddressTx watched tx txInfo
      = receiverEvents watched tx.outputs
        ++ (if txInfo.metadata.isSome then [EventType.metadata_added] else []) := by
    simp [classifyAddressTx, hrecv, hsend]
  refine ⟨?_, ?_, ?_, ?_, ?_⟩ <;> rw [hcal]
  · exact List.mem_append_left _ (by simp [receiverEvents])
  all_goals
    intro hmem
    rcases List.mem_append.mp hmem with h | h
    · rcases mem_receiverEvents watched tx.outputs _ h with h | h | h | h <;>
        exact EventType.noConfusion h
    · split_ifs at h <;> simp at h

/-- Witness for C6: an output-only transaction at the watched address. -/
theorem receiver_only_classification_witness :
    isReceiver "a" (AddressTxItem.mk "t" none (some [TxEntry.mk "a" none])) = true ∧
    isSender "a" (AddressTxItem.mk "t" none (some [TxEntry.mk "a" none])) = false ∧
    (EventType.transaction_received ∈
        classifyAddressTx "a" (AddressTxItem.mk "t" none (some [TxEntry.mk "a" none]))
          (CardanoTransaction.mk "t" 1 2 0 none) ∧
      EventType.transaction_sent ∉
        classifyAddressTx "a" (AddressTxItem.mk "t" none (some [TxEntry.mk "a" none]))
          (CardanoTransaction.mk "t" 1 2 0 none) ∧
      EventType.ada_sent ∉
        classifyAddressTx "a" (AddressTxItem.mk "t" none (some [TxEntry.mk "a" none]))
          (CardanoTransaction.mk "t" 1 2 0 none) ∧
      EventType.token_sent ∉
        classifyAddressTx "a" (AddressTxItem.mk "t" none (some [TxEntry.mk "a" none]))
          (CardanoTransaction.mk "t" 1 2 0 none) ∧
      EventType.nft_sent ∉
        classifyAddressTx "a" (AddressTxItem.mk "t" none (some [TxEntry.mk "a" none]))
          (CardanoTransaction.mk "t" 1 2 0 none)) :=
  ⟨by decide, by decide,
    receiver_only_classification "a" (AddressTxItem.mk "t" none (some [TxEntry.mk "a" none]))
      (CardanoTransaction.mk "t" 1 2 0 none) (by decide) (by decide)⟩

/-- C7: per processed (contract, transaction) pair exactly one
CONTRACT_EXECUTED event is created, and TOKEN_MINTED is created iff the
detail's asset-mint count is positive. -/
theorem contract_executed_once_minted_iff (txInfo : CardanoTransaction) :
    (contractEvents txInfo).count EventType.contract_executed = 1 ∧
    (EventType.token_minted ∈ contractEvents txInfo ↔ 0 < txInfo.asset_mint_count) := by
  constructor <;> by_cases h : 0 < txInfo.asset_mint_count <;> simp [contractEvents, h]

end Scanner

namespace Scanner

/-! ## Change detector dedup cache (`src/blockchain/monitor.ts` lines 9-18, 125-140) -/

/-- The in-memory dedup cache `lastProcessedTxs`: one key set per
namespace (addresses, contracts).  A JS `Set` grown only by guarded insert
is modelled as a duplicate-free list in insertion order, `size` being its
length. -/
structure TxCache where
  addresses : List String
  contracts : List String
deriving DecidableEq, Repr

/-- `lastProcessedTxs.maxSize` (monitor.ts line 13); the scan functions
take the cap as a parameter with this default value. -/
def lastProcessedTxsMaxSize : ℕ := 1000

/-- The dedup key of monitor.ts line 127. -/
def cacheKey (entityId txHash : String) : String := entityId ++ ":" ++ txHash

/-- One iteration of the `checkAddressTransactions` transaction loop
(monitor.ts lines 125-140) restricted to its cache effect and to whether
the transaction is processed (classified) or skipped: skip when the key is
cached; otherwise add the key, clear the whole cache and re-add the key
when the addresses set now exceeds `cap`, then process the transaction. -/
def scanAddressStep (cap : ℕ) (addrId : String) (st : TxCache × List String)
    (txHash : String) : TxCache × List String :=
  let key := cacheKey addrId txHash
  if key ∈ st.1.addresses then st
  else
    let c1 : TxCache := { st.1 with addresses := st.1.addresses ++ [key] }
    let c2 : TxCache :=
      if cap < c1.addresses.length then TxCache.mk [key] [] else c1
    (c2, st.2 ++ [txHash])

/-- The whole per-address scan over the fetched transaction list. -/
def scanAddressTxs (cap : ℕ) (addrId : String) (st : TxCache × List String)
    (txs : List String) : TxCache × List String :=
  txs.foldl (scanAddressStep cap addrId) st

/-- Modelled from the spec, as the comparator for the no-skip part of the
cap-clearing claim: the same scan with the cap-and-clear mechanism
removed. -/
def scanAddressStepNoClear (addrId : String) (st : TxCache × List String)
    (txHash : String) : TxCache × List String :=
  let key := cacheKey addrId txHash
  if key ∈ st.1.addresses then st
  else ({ st.1 with addresses := st.1.addresses ++ [key] }, st.2 ++ [txHash])

/-- The clear-free scan over the fetched transaction list. -/
def scanAddressTxsNoClear (addrId : String) (st : TxCache × List String)
    (txs : List String) : TxCache × List String :=
  txs.foldl (scanAddressStepNoClear addrId) st

/-- After a step, every cached address key was cached before or is the key
just processed. -/
theorem scanAddressStep_cache_bound (cap : ℕ) (addrId : String)
    (st : TxCache × List String) (txHash : String) (k : String)
    (hk : k ∈ (scanAddressStep cap addrId st txHash).1.addresses) :
    k ∈ st.1.addresses ∨ k = cacheKey addrId txHash := by
  by_cases hmem : cacheKey addrId txHash ∈ st.1.addresses
  · rw [scanAddressStep, if_pos hmem] at hk
    exact Or.inl hk
  · rw [scanAddressStep, if_neg hmem] at hk
    by_cases hcap : cap < (st.1.addresses ++ [cacheKey addrId txHash]).length
    · simp only [if_pos hcap, List.mem_singleton] at hk
      exact Or.inr hk
    · simp only [if_neg hcap, List.mem_append, List.mem_singleton] at hk
      exact hk

/-- The clear-free run skips a transaction only when the actual run skips
it too: the capped cache is always a subset of the clear-free cache, so
every transaction the clear-free run processes, the actual run processes. -/
theorem scan_no_skip_aux (cap : ℕ) (addrId : String) (txs : List String)
    (stC stU : TxCache × List String)
    (hsub : ∀ k, k ∈ stC.1.addresses → k ∈ stU.1.addresses)
    (hpl : stU.2.Sublist stC.2) :
    ((scanAddressTxsNoClear addrId stU txs).2).Sublist
      ((scanAddressTxs cap addrId stC txs).2) := by
  induction txs generalizing stC stU with
  | nil => exact hpl
  | cons t ts ih =>
      simp only [scanAddressTxs, scanAddressTxsNoClear, List.foldl_cons] at *
      by_cases hC : cacheKey addrId t ∈ stC.1.addresses
      · have hU : cacheKey addrId t ∈ stU.1.addresses := hsub _ hC
        rw [scanAddressStep, if_pos hC, scanAddressStepNoClear, if_pos hU]
        exact ih stC stU hsub hpl
      · have hCproc : (scanAddressStep cap addrId stC t).2 = stC.2 ++ [t] := by
          rw [scanAddressStep, if_neg hC]
        by_cases hU : cacheKey addrId t ∈ stU.1.addresses
        · rw [scanAddressStepNoClear, if_pos hU]
          refine ih (scanAddressStep cap addrId stC t) stU ?_ ?_
          · intro k hk
            rcases scanAddressStep_cache_bound cap addrId stC t k hk with h | h
            · exact hsub _ h
            · exact h ▸ hU
          · rw [hCproc]
            exact hpl.trans (List.sublist_append_left stC.2 [t])
        · have hUstep : scanAddressStepNoClear addrId stU t
              = ({ stU.1 with addresses := stU.1.addresses ++ [cacheKey addrId t] },
                  stU.2 ++ [t]) := by
            rw [scanAddressStepNoClear, if_neg hU]
          rw [hUstep]
          refine ih (scanAddressStep cap addrId stC t) _ ?_ ?_
          · intro k hk
            rcases scanAddressStep_cache_bound cap addrId stC t k hk with h | h
            · exact List.mem_append_left _ (hsub _ h)
            · exact List.mem_append_right _ (h ▸ List.mem_singleton_self _)
          · rw [hCproc]
            exact hpl.append_right [t]

/-- C9: when inserting the just-processed key pushes the addresses set
past the cap, the whole cache (both namespaces) is replaced by just that
key and the transaction is still processed; and whatever the cap and
wherever clears happen, every transaction the clear-free scan processes is
processed by the actual scan — a clear never causes a skip. -/
theorem dedup_cache_clear_no_skip (cap : ℕ) (addrId txHash : String)
    (st : TxCache × List String)
    (h1 : cacheKey addrId txHash ∉ st.1.addresses)
    (h2 : cap < st.1.addresses.length + 1) :
    (scanAddressStep cap addrId st txHash).1
        = TxCache.mk [cacheKey addrId txHash] [] ∧
    (scanAddressStep cap addrId st txHash).2 = st.2 ++ [txHash] ∧
    ∀ (txs : List String) (c0 : TxCache) (p0 : List String),
      ((scanAddressTxsNoClear addrId (c0, p0) txs).2).Sublist
        ((scanAddressTxs cap addrId (c0, p0) txs).2) := by
  have hlen : cap < (st.1.addresses ++ [cacheKey addrId txHash]).length := by
    simpa using h2
  refine ⟨?_, ?_, ?_⟩
  · rw [scanAddressStep, if_neg h1]
    simp only [if_pos hlen]
  · rw [scanAddressStep, if_neg h1]
  · intro txs c0 p0
    exact scan_no_skip_aux cap addrId txs (c0, p0) (c0, p0) (fun k hk => hk)
      (List.Sublist.refl p0)

/-- Witness for C9: a cache at cap 1 holding one key is cleared down to
the new key by the next insert, the transaction is processed, and on a
sample scan the clear-free run's processed list is a sublist of the
actual run's. -/
theorem dedup_cache_clear_no_skip_witness :
    (scanAddressStep 1 "a" (TxCache.mk ["a:t1"] [], ["t1"]) "t2").1
        = TxCache.mk [cacheKey "a" "t2"] [] ∧
    (scanAddressStep 1 "a" (TxCache.mk ["a:t1"] [], ["t1"]) "t2").2 = ["t1"] ++ ["t2"] ∧
    ((scanAddressTxsNoClear "a" (TxCache.mk [] [], []) ["t1", "t2", "t3"]).2).Sublist
      ((scanAddressTxs 1 "a" (TxCache.mk [] [], []) ["t1", "t2", "t3"]).2) := by
  have h := dedup_cache_clear_no_skip 1 "a" "t2" (TxCache.mk ["a:t1"] [], ["t1"])
    (by decide) (by decide)
  exact ⟨h.1, h.2.1, h.2.2 ["t1", "t2", "t3"] (TxCache.mk [] []) []⟩

end Scanner

namespace Scanner

/-! ## Event processing and subscription matching (`processEvent`,
`src/webhooks/processor.ts` lines 11-55) -/

/-- A row of `transaction_events` as far as `processEvent` touches it. -/
structure TransactionEvent where
  id : String
  tx_hash : String
  event_type : EventType
  event_data : String
  address_id : Option String
  contract_id : Option String
  processed : Bool
deriving DecidableEq, Repr

/-- A row of `webhooks` as far as matching reads it. -/
structure Webhook where
  id : String
  url : String
  secret : Option String
  event_types : List EventType
  is_active : Bool
deriving DecidableEq, Repr

/-- The matching query of processor.ts lines 33-36: active webhooks whose
`event_types` array contains the event's type. -/
def matchingWebhooks (webhooks : List Webhook) (et : EventType) : List Webhook :=
  webhooks.filter (fun w => w.is_active && w.event_types.contains et)

/-- The update of processor.ts lines 27-30: set `processed = true` on the
row with the given id, touching no other column and no other row. -/
def markProcessed (store : List TransactionEvent) (eventId : String) :
    List TransactionEvent :=
  store.map (fun e => if e.id == eventId then { e with processed := true } else e)

/-- `processEvent` over the event store and the webhooks table: load the
event by id (absent: no change, no deliveries), mark it processed, then
queue one PENDING delivery per matching webhook. -/
def processEvent (store : List TransactionEvent) (webhooks : List Webhook)
    (eventId : String) (now : ℚ) :
    List TransactionEvent × List WebhookDelivery :=
  match store.find? (fun e => e.id == eventId) with
  | none => (store, [])
  | some ev =>
      (markProcessed store eventId,
       (matchingWebhooks webhooks ev.event_type).map
         (fun w => queueWebhookDelivery w.id ev.id now))

/-- C8: when the event exists, exactly one delivery — with status PENDING
and attempt_count 0 — is created per active webhook whose event-type set
contains the event's type, and none when no active webhook's set contains
it. -/
theorem deliveries_per_matching_webhook (store : List TransactionEvent)
    (webhooks : List Webhook) (eventId : String) (now : ℚ) (ev : TransactionEvent)
    (hfind : store.find? (fun e => e.id == eventId) = some ev) :
    (processEvent store webhooks eventId now).2
        = (matchingWebhooks webhooks ev.event_type).map
            (fun w => queueWebhookDelivery w.id ev.id now) ∧
    (∀ d ∈ (processEvent store webhooks eventId now).2,
        d.status = WebhookDeliveryStatus.pending ∧ d.attempt_count = 0) ∧
    (processEvent store webhooks eventId now).2.length
        = (matchingWebhooks webhooks ev.event_type).length ∧
    ((∀ w ∈ webhooks, w.is_active = true → w.event_types.contains ev.event_type = false)
        → (processEvent store webhooks eventId now).2 = []) := by
  have hpe : (processEvent store webhooks eventId now).2
      = (matchingWebhooks webhooks ev.event_type).map
          (fun w => queueWebhookDelivery w.id ev.id now) := by
    rw [processEvent, hfind]
  refine ⟨hpe, ?_, ?_, ?_⟩
  · intro d hd
    rw [hpe] at hd
    rcases List.mem_map.mp hd with ⟨w, _, rfl⟩
    exact ⟨rfl, rfl⟩
  · rw [hpe, List.length_map]
  · intro hnone
    rw [hpe]
    have hmw : matchingWebhooks webhooks ev.event_type = [] := by
      rw [matchingWebhooks, List.filter_eq_nil_iff]
      intro w hw
      by_cases hact : w.is_active = true
      · simp only [hact, Bool.true_and]
        simpa using hnone w hw hact
      · simp [Bool.eq_false_iff.mpr hact]
    rw [hmw, List.map_nil]

/-- Sample store and webhooks for the C8 witness: one matching active
webhook, one active webhook subscribed to a different kind. -/
def sampleStore : List TransactionEvent :=
  [TransactionEvent.mk "e1" "t1" EventType.ada_received "d" (some "a") none false]

/-- Sample webhooks table for the C8 witness. -/
def sampleWebhooks : List Webhook :=
  [Webhook.mk "w1" "u1" none [EventType.ada_received] true,
   Webhook.mk "w2" "u2" none [EventType.token_received] true]

/-- Witness for C8: with one matching webhook of two, exactly one PENDING
delivery is created. -/
theorem deliveries_per_matching_webhook_witness :
    sampleStore.find? (fun e => e.id == "e1")
        = some (TransactionEvent.mk "e1" "t1" EventType.ada_received "d" (some "a") none false) ∧
    (processEvent sampleStore sampleWebhooks "e1" 0).2
        = [queueWebhookDelivery "w1" "e1" 0] :=
  ⟨rfl,
    ((deliveries_per_matching_webhook sampleStore sampleWebhooks "e1" 0
        (TransactionEvent.mk "e1" "t1" EventType.ada_received "d" (some "a") none false)
        rfl).1).trans rfl⟩

/-- C10: when the event exists, the stored event ends with processed =
true and no other field or row changed, the store update is the same
whatever the webhooks table holds (processing is marked before and
independently of matching — so also when zero deliveries are created),
and a missing event id changes nothing. -/
theorem processed_set_unconditionally (store : List TransactionEvent)
    (webhooks : List Webhook) (eventId : String) (now : ℚ) (ev : TransactionEvent)
    (hfind : store.find? (fun e => e.id == eventId) = some ev) :
    (processEvent store webhooks eventId now).1 = markProcessed store eventId ∧
    (∀ webhooks2 : List Webhook,
        (processEvent store webhooks2 eventId now).1
          = (processEvent store webhooks eventId now).1) ∧
    (∀ e ∈ store, e.id = eventId →
        { e with processed := true } ∈ (processEvent store webhooks eventId now).1) ∧
    (∀ e ∈ store, e.id ≠ eventId → e ∈ (processEvent store webhooks eventId now).1) := by
  have hpe : ∀ ws : List Webhook, (processEvent store ws eventId now).1
      = markProcessed store eventId := by
    intro ws
    rw [processEvent, hfind]
  refine ⟨hpe webhooks, fun ws2 => (hpe ws2).trans (hpe webhooks).symm, ?_, ?_⟩
  · intro e he heq
    rw [hpe webhooks, markProcessed]
    have : (fun e : TransactionEvent =>
        if e.id == eventId then { e with processed := true } else e) e
        = { e with processed := true } := by
      simp [heq]
    exact this ▸ List.mem_map_of_mem _ he
  · intro e he hne
    rw [hpe webhooks, markProcessed]
    have : (fun e : TransactionEvent =>
        if e.id == eventId then { e with processed := true } else e) e = e := by
      simp [hne]
    exact this ▸ List.mem_map_of_mem _ he

/-- Witness for C10: an event matched by no webhook (empty webhooks table)
still ends processed, with its other fields and the other row intact, and
zero deliveries are created. -/
theorem processed_set_unconditionally_witness :
    [TransactionEvent.mk "e1" "t1" EventType.ada_received "d" none none false,
     TransactionEvent.mk "e2" "t2" EventType.token_sent "d2" none none false].find?
        (fun e => e.id == "e1")
        = some (TransactionEvent.mk "e1" "t1" EventType.ada_received "d" none none false) ∧
    (processEvent
        [TransactionEvent.mk "e1" "t1" EventType.ada_received "d" none none false,
         TransactionEvent.mk "e2" "t2" EventType.token_sent "d2" none none false]
        [] "e1" 0).1
        = [TransactionEvent.mk "e1" "t1" EventType.ada_received "d" none none true,
           TransactionEvent.mk "e2" "t2" EventType.token_sent "d2" none none false] ∧
    (processEvent
        [TransactionEvent.mk "e1" "t1" EventType.ada_received "d" none none false,
         TransactionEvent.mk "e2" "t2" EventType.token_sent "d2" none none false]
        [] "e1" 0).2 = [] :=
  ⟨rfl,
    ((processed_set_unconditionally
        [TransactionEvent.mk "e1" "t1" EventType.ada_received "d" none none false,
         TransactionEvent.mk "e2" "t2" EventType.token_sent "d2" none none false]
        [] "e1" 0
        (TransactionEvent.mk "e1" "t1" EventType.ada_received "d" none none false)
        rfl).1).trans rfl,
    rfl⟩

end Scanner
